import Mathlib

/-!
Verification of the loan decision engine (credit approval system).

Shallow embedding of the core services:
- `calc_emi` (core/services/loan_service.py) — amortization calculator;
- `Loan.remaining_principal` (core/models.py) — annuity inversion;
- `calculate_credit_score` (core/services/credit_score.py) — credit scorer;
- `check_loan_eligibility` (core/services/eligibility.py) — eligibility decider;
- `calculate_approved_limit` (core/views.py, `RegisterView._calculate_approved_limit`).

Modelling conventions:
- Python `Decimal` values are embedded as exact rationals (`ℚ`).  The source
  runs `Decimal` arithmetic at the default context precision of 28 significant
  digits; at the magnitudes of this application every intermediate fits far
  inside that precision, so exact rational arithmetic is the faithful
  idealization.  The one float division in the scorer (`total_paid /
  tenure_sum`, two Python ints) is likewise idealized as exact division.
- `round(_, 2)` on a `Decimal`, and `Decimal.quantize` under the default
  context, round half to even (banker's rounding); `roundHalfEven` below
  embeds that rounding mode exactly.
- The scorer reads the calendar year of `date.today()` and each loan's
  `start_date.year`; only those years are observable, so a loan carries a
  `start_year` field and the current year is an explicit parameter.
-/

/-- Round a rational to the nearest integer, ties to even: the rounding mode
of Python `Decimal.quantize` / `round` under the default context. -/
def roundHalfEven (x : ℚ) : ℤ :=
  let f := ⌊x⌋
  let frac := x - f
  if frac < 1/2 then f
  else if 1/2 < frac then f + 1
  else if f % 2 = 0 then f else f + 1

/-- Round a rational to 2 decimal places, half to even: Python
`round(decimalValue, 2)`. -/
def round2 (x : ℚ) : ℚ :=
  (roundHalfEven (100 * x) : ℚ) / 100

/-- A loan record (`core/models.py`, class `Loan`).  Only the fields the core
services read are embedded; `start_date` is observed only through its calendar
year, carried as `start_year`. -/
structure Loan where
  loan_amount : ℚ
  interest_rate : ℚ
  tenure : ℤ
  monthly_installment : ℚ
  emis_paid_on_time : ℤ
  start_year : ℤ
deriving Repr, DecidableEq

/-- A customer record (`core/models.py`, class `Customer`) together with the
collection `customer.loans.all()` of loans belonging to it. -/
structure Customer where
  monthly_salary : ℚ
  approved_limit : ℚ
  loans : List Loan
deriving Repr, DecidableEq

namespace Loan

/-- `Loan.remaining_emis`: `max(0, self.tenure - self.emis_paid_on_time)`. -/
def remaining_emis (l : Loan) : ℤ :=
  max 0 (l.tenure - l.emis_paid_on_time)

/-- `Loan.is_active`: the loan still has payments left. -/
def is_active (l : Loan) : Bool :=
  l.remaining_emis > 0

/-- `Loan.remaining_principal` (`core/models.py`): `0.00` for an inactive
loan; otherwise inverts the annuity formula on the stored installment and
stored rate over the remaining EMIs. -/
def remaining_principal (l : Loan) : ℚ :=
  if ¬ l.is_active then 0
  else
    let remaining := l.remaining_emis.toNat
    let monthly_r := l.interest_rate / 12 / 100
    let monthly_emi := l.monthly_installment
    if monthly_r = 0 then monthly_emi * remaining
    else
      let power := (1 + monthly_r) ^ remaining
      round2 (monthly_emi * ((power - 1) / (monthly_r * power)))

end Loan

/-- `calc_emi` (`core/services/loan_service.py`): the EMI for a principal,
annual percentage rate and tenure in months.  The tenure is a natural number
(the caller validates `tenure ∈ [1, 360]`; the function itself also accepts
`0`). -/
def calc_emi (principal annual_rate : ℚ) (tenure_months : ℕ) : ℚ :=
  if tenure_months = 0 then 0
  else
    let monthly_r := annual_rate / 12 / 100
    if monthly_r = 0 then round2 (principal / tenure_months)
    else
      let power := (1 + monthly_r) ^ tenure_months
      round2 ((principal * monthly_r * power) / (power - 1))

/-- Sum of `remaining_principal` over the customer's active loans: the
`current_debt` read in `calculate_credit_score`. -/
def currentDebt (c : Customer) : ℚ :=
  ((c.loans.filter (fun l => l.is_active)).map (fun l => l.remaining_principal)).sum

/-- `calculate_credit_score` (`core/services/credit_score.py`).  `today_year`
is the calendar year of `date.today()`, an explicit parameter here.  The
structure mirrors the source: hard-cap check, new-customer baseline, then the
four additive adjustments applied in order to a base score of 50 and a final
clamp to `[0, 100]`. -/
def calculate_credit_score (today_year : ℤ) (c : Customer) : ℤ :=
  let loans := c.loans
  let current_debt := currentDebt c
  if current_debt > c.approved_limit then 0
  else if loans.isEmpty then 50
  else
    let total_paid : ℤ := (loans.map (fun l => l.emis_paid_on_time)).sum
    let tenure_sum : ℤ := (loans.map (fun l => l.tenure)).sum
    let completed : ℕ := (loans.filter (fun l => ¬ l.is_active)).length
    let score1 : ℤ := 50 +
      (if tenure_sum > 0 then
        let perf_ratio : ℚ := (total_paid : ℚ) / (tenure_sum : ℚ)
        if perf_ratio > 9/10 then 10
        else if perf_ratio > 7/10 then 5
        else if perf_ratio < 1/2 then -10
        else 0
      else 0)
    let score2 : ℤ := score1 +
      (if completed > 3 then 10 else if completed ≥ 1 then 5 else 0)
    let recent_loans : ℕ := (loans.filter (fun l => l.start_year = today_year)).length
    let score3 : ℤ := score2 +
      (if recent_loans > 3 then -10 else if recent_loans ≥ 1 then 5 else 0)
    let total_vol : ℚ := (loans.map (fun l => l.loan_amount)).sum
    let score4 : ℤ := score3 +
      (if total_vol > 1000000 then 10 else if total_vol > 500000 then 5 else 0)
    max 0 (min 100 score4)

/-- The risk-slab step of `check_loan_eligibility`: from the credit score and
the requested rate, the pre-affordability approval flag and the final
(possibly floored) rate, exactly as the if/elif chain in the source computes
`approved` and `final_rate`. -/
def slabDecision (score : ℤ) (requested_rate : ℚ) : Bool × ℚ :=
  if score > 50 then (true, requested_rate)
  else if score > 30 then (true, max requested_rate 12)
  else if score > 10 then (true, max requested_rate 16)
  else (false, requested_rate)

/-- Sum of `monthly_installment` over the customer's active loans: the
`current_emi_total` accumulated in `check_loan_eligibility`. -/
def currentEmiTotal (c : Customer) : ℚ :=
  ((c.loans.filter (fun l => l.is_active)).map (fun l => l.monthly_installment)).sum

/-- The dictionary returned by `check_loan_eligibility`. -/
structure EligibilityResult where
  approval : Bool
  credit_score : ℤ
  corrected_interest_rate : ℚ
  monthly_installment : ℚ
deriving Repr, DecidableEq

/-- `check_loan_eligibility` (`core/services/eligibility.py`): risk slab on
the credit score, then the unconditional EMI-affordability check against half
the monthly salary. -/
def check_loan_eligibility (today_year : ℤ) (c : Customer)
    (requested_amount requested_rate : ℚ) (tenure : ℕ) : EligibilityResult :=
  let score := calculate_credit_score today_year c
  let slab := slabDecision score requested_rate
  let current_emi_total := currentEmiTotal c
  let new_emi := calc_emi requested_amount slab.2 tenure
  let approved := if current_emi_total + new_emi > (1/2) * c.monthly_salary
    then false else slab.1
  { approval := approved
    credit_score := score
    corrected_interest_rate := slab.2
    monthly_installment := new_emi }

/-- `RegisterView._calculate_approved_limit` (`core/views.py`):
`(monthly_income * 36 / 100000).quantize(Decimal(1)) * 100000`, where
`quantize` under the default context rounds half to even. -/
def calculate_approved_limit (monthly_income : ℚ) : ℚ :=
  (roundHalfEven (monthly_income * 36 / 100000) : ℚ) * 100000

/-! Spec-side definitions.  These follow the wording of the specification
(double-sided slab conditions, fully-serviced count phrased on
`remaining_emis == 0`) and are compared against the source-side definitions
above in the refinement theorems below. -/

/-- Payment-performance adjustment as the spec words it: the ratio of
`emis_paid_on_time` summed over all loans to `tenure` summed over all loans,
applied only when the tenure sum is positive; `+10` if ratio `> 0.9`, `+5` if
`0.7 <` ratio `≤ 0.9`, `−10` if ratio `< 0.5`, else `0`. -/
def specPerformanceAdjustment (c : Customer) : ℤ :=
  let total_paid : ℤ := (c.loans.map (fun l => l.emis_paid_on_time)).sum
  let tenure_sum : ℤ := (c.loans.map (fun l => l.tenure)).sum
  if tenure_sum > 0 then
    let ratio : ℚ := (total_paid : ℚ) / (tenure_sum : ℚ)
    if ratio > 9/10 then 10
    else if 7/10 < ratio ∧ ratio ≤ 9/10 then 5
    else if ratio < 1/2 then -10
    else 0
  else 0

/-- Fully-serviced loan count adjustment as the spec words it: count of loans
with `remaining_emis == 0`; more than 3 → `+10`, 1 to 3 → `+5`, else `0`. -/
def specCompletedAdjustment (c : Customer) : ℤ :=
  let n := (c.loans.filter (fun l => l.remaining_emis = 0)).length
  if n > 3 then 10 else if 1 ≤ n ∧ n ≤ 3 then 5 else 0

/-- Current-year activity adjustment as the spec words it: count of loans
started in the current calendar year; more than 3 → `−10`, 1 to 3 → `+5`,
else `0`. -/
def specRecentAdjustment (today_year : ℤ) (c : Customer) : ℤ :=
  let n := (c.loans.filter (fun l => l.start_year = today_year)).length
  if n > 3 then -10 else if 1 ≤ n ∧ n ≤ 3 then 5 else 0

/-- Total loan-volume adjustment as the spec words it: sum of `loan_amount`
over all loans; `> 1,000,000` → `+10`, `> 500,000` and `≤ 1,000,000` → `+5`,
else `0`. -/
def specVolumeAdjustment (c : Customer) : ℤ :=
  let v : ℚ := (c.loans.map (fun l => l.loan_amount)).sum
  if v > 1000000 then 10 else if 500000 < v ∧ v ≤ 1000000 then 5 else 0

/-- Remaining-principal formula as the spec words it: with `r` the monthly
rate, `n = remaining_emis` and `A = monthly_installment`, `A * n` when
`r = 0`, else `A * ((1+r)^n − 1) / (r * (1+r)^n)` rounded to 2 decimals. -/
def specRemainingPrincipal (l : Loan) : ℚ :=
  let r := l.interest_rate / 12 / 100
  let n := l.remaining_emis.toNat
  let A := l.monthly_installment
  if r = 0 then A * n
  else round2 (A * (((1 + r) ^ n - 1) / (r * (1 + r) ^ n)))

/-! Sample data used by the witness theorems below. -/

/-- A freshly registered customer with no loans. -/
def freshCustomer : Customer where
  monthly_salary := 50000
  approved_limit := 1800000
  loans := []

/-- An interest-free active loan: 12 of 12 EMIs of 10,000 outstanding. -/
def activeLoan : Loan where
  loan_amount := 120000
  interest_rate := 0
  tenure := 12
  monthly_installment := 10000
  emis_paid_on_time := 0
  start_year := 2025

/-- A customer whose single active loan keeps 120,000 outstanding against an
approved limit of only 100,000: the hard cap is breached. -/
def capBreachedCustomer : Customer where
  monthly_salary := 50000
  approved_limit := 100000
  loans := [activeLoan]

/-- A customer with one active loan and a comfortable approved limit. -/
def oneLoanCustomer : Customer where
  monthly_salary := 50000
  approved_limit := 1800000
  loans := [activeLoan]

/-- A customer whose active loan already consumes 20,000 of a 10,000 salary
half: any further request must be rejected on affordability. -/
def stretchedCustomer : Customer where
  monthly_salary := 10000
  approved_limit := 1800000
  loans := [activeLoan]

/-- A small loan started in 2026 with no EMIs paid yet. -/
def recentLoan : Loan where
  loan_amount := 100
  interest_rate := 0
  tenure := 10
  monthly_installment := 10
  emis_paid_on_time := 0
  start_year := 2026

/-- Four active current-year loans, no payments yet: performance −10 and
recent-activity −10 drive the score to its minimum of 30. -/
def riskiestCustomer : Customer where
  monthly_salary := 1000
  approved_limit := 1000
  loans := [recentLoan, recentLoan, recentLoan, recentLoan]

/-! Rounding lemmas. -/

theorem roundHalfEven_nonneg {x : ℚ} (hx : 0 ≤ x) : 0 ≤ roundHalfEven x := by
  unfold roundHalfEven
  have hf : (0 : ℤ) ≤ ⌊x⌋ := Int.floor_nonneg.mpr hx
  dsimp only
  split
  · exact hf
  · split
    · omega
    · split <;> omega

theorem round2_nonneg {x : ℚ} (hx : 0 ≤ x) : 0 ≤ round2 x := by
  unfold round2
  have h : 0 ≤ roundHalfEven (100 * x) := roundHalfEven_nonneg (by linarith)
  have h2 : (0 : ℚ) ≤ (roundHalfEven (100 * x) : ℚ) := by exact_mod_cast h
  linarith

theorem roundHalfEven_dist (x : ℚ) : |x - roundHalfEven x| ≤ 1/2 := by
  unfold roundHalfEven
  have h0 : (⌊x⌋ : ℚ) ≤ x := Int.floor_le x
  have h1 : x < ⌊x⌋ + 1 := Int.lt_floor_add_one x
  dsimp only
  split
  · rename_i h
    rw [abs_le]
    constructor <;> [linarith; linarith]
  · rename_i h
    push_neg at h
    split
    · rename_i h2
      push_cast
      rw [abs_le]
      constructor <;> [linarith; linarith]
    · rename_i h2
      push_neg at h2
      have he : x - (⌊x⌋ : ℚ) = 1/2 := le_antisymm h2 h
      split <;> push_cast <;> rw [abs_le] <;> constructor <;> linarith

/-! Helper lemmas relating the source's `elif` chains to the spec's
double-sided conditions. -/

theorem perf_chain_eq (q : ℚ) :
    (if q > 9/10 then (10:ℤ) else if q > 7/10 then 5 else if q < 1/2 then -10 else 0)
      = if q > 9/10 then 10 else if 7/10 < q ∧ q ≤ 9/10 then 5
        else if q < 1/2 then -10 else 0 := by
  by_cases h1 : q > 9/10
  · simp [h1]
  · by_cases h2 : q > 7/10
    · have hb : 7/10 < q ∧ q ≤ 9/10 := ⟨h2, le_of_not_lt h1⟩
      simp [h1, h2, hb]
    · have hn : ¬ (7/10 < q ∧ q ≤ 9/10) := fun hc => h2 hc.1
      simp [h1, h2, hn]

theorem count_chain_eq (n : ℕ) :
    (if n > 3 then (10:ℤ) else if n ≥ 1 then 5 else 0)
      = if n > 3 then 10 else if 1 ≤ n ∧ n ≤ 3 then 5 else 0 := by
  split_ifs <;> omega

theorem recent_chain_eq (n : ℕ) :
    (if n > 3 then (-10:ℤ) else if n ≥ 1 then 5 else 0)
      = if n > 3 then -10 else if 1 ≤ n ∧ n ≤ 3 then 5 else 0 := by
  split_ifs <;> omega

theorem vol_chain_eq (v : ℚ) :
    (if v > 1000000 then (10:ℤ) else if v > 500000 then 5 else 0)
      = if v > 1000000 then 10 else if 500000 < v ∧ v ≤ 1000000 then 5 else 0 := by
  by_cases h1 : v > 1000000
  · simp [h1]
  · by_cases h2 : v > 500000
    · have hb : 500000 < v ∧ v ≤ 1000000 := ⟨h2, le_of_not_lt h1⟩
      simp [h1, h2, hb]
    · have hn : ¬ (500000 < v ∧ v ≤ 1000000) := fun hc => h2 hc.1
      simp [h1, h2, hn]

theorem filter_not_active_eq (ls : List Loan) :
    ls.filter (fun l => ¬ l.is_active) = ls.filter (fun l => l.remaining_emis = 0) := by
  apply List.filter_congr
  intro l _
  simp only [Loan.is_active, Loan.remaining_emis, decide_eq_decide, decide_eq_true_eq,
    not_lt, gt_iff_lt]
  omega

/-- Refinement of the scorer: when the hard cap does not fire and the
customer has loans, `calculate_credit_score` is the clamped sum of the base
score and the spec's four adjustments. -/
theorem calculate_credit_score_eq (y : ℤ) (c : Customer)
    (h1 : c.loans ≠ []) (h2 : currentDebt c ≤ c.approved_limit) :
    calculate_credit_score y c = max 0 (min 100
      (50 + specPerformanceAdjustment c + specCompletedAdjustment c
        + specRecentAdjustment y c + specVolumeAdjustment c)) := by
  have hcap : ¬ currentDebt c > c.approved_limit := not_lt.mpr h2
  have hne : c.loans.isEmpty = false := by
    simpa [List.isEmpty_iff] using h1
  simp only [calculate_credit_score, specPerformanceAdjustment,
    specCompletedAdjustment, specRecentAdjustment, specVolumeAdjustment,
    hne, if_neg hcap, Bool.false_eq_true, if_false, filter_not_active_eq,
    perf_chain_eq, count_chain_eq, recent_chain_eq, vol_chain_eq]

theorem specPerformanceAdjustment_bounds (c : Customer) :
    -10 ≤ specPerformanceAdjustment c ∧ specPerformanceAdjustment c ≤ 10 := by
  unfold specPerformanceAdjustment
  dsimp only
  split_ifs <;> omega

theorem specCompletedAdjustment_bounds (c : Customer) :
    0 ≤ specCompletedAdjustment c ∧ specCompletedAdjustment c ≤ 10 := by
  unfold specCompletedAdjustment
  dsimp only
  split_ifs <;> omega

theorem specRecentAdjustment_bounds (y : ℤ) (c : Customer) :
    -10 ≤ specRecentAdjustment y c ∧ specRecentAdjustment y c ≤ 5 := by
  unfold specRecentAdjustment
  dsimp only
  split_ifs <;> omega

theorem specVolumeAdjustment_bounds (c : Customer) :
    0 ≤ specVolumeAdjustment c ∧ specVolumeAdjustment c ≤ 10 := by
  unfold specVolumeAdjustment
  dsimp only
  split_ifs <;> omega

/-- With loans and no hard-cap breach the unclamped sum already lies in
`[30, 85]`, so the score equals it and the clamp is the identity. -/
theorem calculate_credit_score_in_range (y : ℤ) (c : Customer)
    (h1 : c.loans ≠ []) (h2 : currentDebt c ≤ c.approved_limit) :
    calculate_credit_score y c =
      50 + specPerformanceAdjustment c + specCompletedAdjustment c
        + specRecentAdjustment y c + specVolumeAdjustment c ∧
    30 ≤ calculate_credit_score y c ∧ calculate_credit_score y c ≤ 85 := by
  have he := calculate_credit_score_eq y c h1 h2
  have b1 := specPerformanceAdjustment_bounds c
  have b2 := specCompletedAdjustment_bounds c
  have b3 := specRecentAdjustment_bounds y c
  have b4 := specVolumeAdjustment_bounds c
  rw [he]
  omega

theorem score_hard_cap (y : ℤ) (c : Customer) (h : currentDebt c > c.approved_limit) :
    calculate_credit_score y c = 0 := by
  simp only [calculate_credit_score, if_pos h]

theorem score_no_loans (y : ℤ) (c : Customer) (h1 : c.loans = [])
    (h2 : 0 ≤ c.approved_limit) : calculate_credit_score y c = 50 := by
  have hd : currentDebt c = 0 := by simp [currentDebt, h1]
  simp [calculate_credit_score, hd, h1, not_lt.mpr h2]

/-- Claim C3: if the summed remaining principal of the customer's active
loans strictly exceeds the approved limit, the credit score is 0, regardless
of any other loan history — the hard cap is checked before every other
scoring rule. -/
theorem C3_hard_cap (today_year : ℤ) (c : Customer)
    (h : currentDebt c > c.approved_limit) :
    calculate_credit_score today_year c = 0 :=
  score_hard_cap today_year c h

theorem C3_hard_cap_witness :
    currentDebt capBreachedCustomer > capBreachedCustomer.approved_limit ∧
    calculate_credit_score 2026 capBreachedCustomer = 0 := by
  have hgt : currentDebt capBreachedCustomer > capBreachedCustomer.approved_limit := by
    simp [currentDebt, capBreachedCustomer, activeLoan, Loan.remaining_principal,
      Loan.is_active, Loan.remaining_emis]
    norm_num
  exact ⟨hgt, C3_hard_cap 2026 capBreachedCustomer hgt⟩

/-- Claim C4: a customer with an empty loan collection scores exactly 50
(the data model guarantees a non-negative approved limit, under which the
hard-cap guard cannot fire on zero debt). -/
theorem C4_new_customer_baseline (today_year : ℤ) (c : Customer)
    (h1 : c.loans = []) (h2 : 0 ≤ c.approved_limit) :
    calculate_credit_score today_year c = 50 :=
  score_no_loans today_year c h1 h2

theorem C4_new_customer_baseline_witness :
    freshCustomer.loans = [] ∧ (0:ℚ) ≤ freshCustomer.approved_limit ∧
    calculate_credit_score 2026 freshCustomer = 50 :=
  ⟨rfl, by norm_num [freshCustomer],
    C4_new_customer_baseline 2026 freshCustomer rfl (by norm_num [freshCustomer])⟩

/-- Claim C5: for a customer with at least one loan and no hard-cap breach,
the credit score is 50 plus the four additive adjustments — payment
performance, fully-serviced count, current-year starts, and total volume, in
the spec's double-sided formulation — clamped to [0, 100]. -/
theorem C5_score_formula (today_year : ℤ) (c : Customer)
    (h1 : c.loans ≠ []) (h2 : currentDebt c ≤ c.approved_limit) :
    calculate_credit_score today_year c = max 0 (min 100
      (50 + specPerformanceAdjustment c + specCompletedAdjustment c
        + specRecentAdjustment today_year c + specVolumeAdjustment c)) :=
  calculate_credit_score_eq today_year c h1 h2

theorem C5_score_formula_witness :
    oneLoanCustomer.loans ≠ [] ∧
    currentDebt oneLoanCustomer ≤ oneLoanCustomer.approved_limit ∧
    calculate_credit_score 2026 oneLoanCustomer = 40 := by
  have h1 : oneLoanCustomer.loans ≠ [] := by simp [oneLoanCustomer]
  have h2 : currentDebt oneLoanCustomer ≤ oneLoanCustomer.approved_limit := by
    simp [currentDebt, oneLoanCustomer, activeLoan, Loan.remaining_principal,
      Loan.is_active, Loan.remaining_emis]
    norm_num
  refine ⟨h1, h2, ?_⟩
  have h := C5_score_formula 2026 oneLoanCustomer h1 h2
  rw [h]
  norm_num [specPerformanceAdjustment, specCompletedAdjustment, specRecentAdjustment,
    specVolumeAdjustment, oneLoanCustomer, activeLoan, Loan.remaining_emis]

/-- Claim C10: with at least one loan and no hard-cap breach the score is
the unclamped sum of 50 and the four adjustments and lies in [30, 85] (so
the clamp to [0, 100] never alters it); consequently the score is always 0,
50, or in [30, 85], and a score in the (10, 30] risk slab can only be
exactly 30. -/
theorem C10_score_range (today_year : ℤ) (c : Customer) :
    (calculate_credit_score today_year c = 0 ∨ calculate_credit_score today_year c = 50 ∨
      (30 ≤ calculate_credit_score today_year c ∧ calculate_credit_score today_year c ≤ 85)) ∧
    (c.loans ≠ [] → currentDebt c ≤ c.approved_limit →
      calculate_credit_score today_year c =
        50 + specPerformanceAdjustment c + specCompletedAdjustment c
          + specRecentAdjustment today_year c + specVolumeAdjustment c ∧
      30 ≤ calculate_credit_score today_year c ∧ calculate_credit_score today_year c ≤ 85) ∧
    (10 < calculate_credit_score today_year c → calculate_credit_score today_year c ≤ 30 →
      calculate_credit_score today_year c = 30) := by
  have tri : calculate_credit_score today_year c = 0 ∨
      calculate_credit_score today_year c = 50 ∨
      (30 ≤ calculate_credit_score today_year c ∧
        calculate_credit_score today_year c ≤ 85) := by
    by_cases hcap : c.approved_limit < currentDebt c
    · exact Or.inl (score_hard_cap today_year c hcap)
    · by_cases hl : c.loans = []
      · refine Or.inr (Or.inl ?_)
        have hd : currentDebt c = 0 := by simp [currentDebt, hl]
        refine score_no_loans today_year c hl ?_
        rw [hd] at hcap
        exact not_lt.mp hcap
      · exact Or.inr (Or.inr
          (calculate_credit_score_in_range today_year c hl (not_lt.mp hcap)).2)
  refine ⟨tri, ?_, ?_⟩
  · intro h1 h2
    exact calculate_credit_score_in_range today_year c h1 h2
  · intro hlo hhi
    rcases tri with h | h | ⟨h, h3⟩ <;> omega

theorem C10_score_range_witness :
    10 < calculate_credit_score 2026 riskiestCustomer ∧
    calculate_credit_score 2026 riskiestCustomer = 30 := by
  have h1 : riskiestCustomer.loans ≠ [] := by simp [riskiestCustomer]
  have h2 : currentDebt riskiestCustomer ≤ riskiestCustomer.approved_limit := by
    simp [currentDebt, riskiestCustomer, recentLoan, Loan.remaining_principal,
      Loan.is_active, Loan.remaining_emis]
    norm_num
  have h := (C10_score_range 2026 riskiestCustomer).2.1 h1 h2
  have hv : calculate_credit_score 2026 riskiestCustomer = 30 := by
    rw [h.1]
    norm_num [specPerformanceAdjustment, specCompletedAdjustment, specRecentAdjustment,
      specVolumeAdjustment, riskiestCustomer, recentLoan, Loan.remaining_emis]
  have h3 := (C10_score_range 2026 riskiestCustomer).2.2 (by omega) (by omega)
  exact ⟨by omega, h3⟩

theorem slab_cases (s : ℤ) (rate : ℚ) :
    (s > 50 → slabDecision s rate = (true, rate)) ∧
    (30 < s ∧ s ≤ 50 → slabDecision s rate = (true, max rate 12)) ∧
    (10 < s ∧ s ≤ 30 → slabDecision s rate = (true, max rate 16)) ∧
    (s ≤ 10 → slabDecision s rate = (false, rate)) := by
  unfold slabDecision
  refine ⟨?_, ?_, ?_, ?_⟩ <;> intro h <;> split_ifs <;>
    first | rfl | (exfalso; omega)

/-- Claim C1: for every customer and requested loan, the eligibility decision
applies the risk-slab policy to the credit score: score over 50 approves at
the requested rate unchanged; a score in (30, 50] approves at
max(requestedRate, 12); a score in (10, 30] approves at
max(requestedRate, 16); a score of at most 10 is not approved and the
returned corrected rate is the requested rate as-is.  The slab approval is
the pre-affordability decision, and the returned corrected rate is exactly
the slab rate. -/
theorem C1_risk_slab (today_year : ℤ) (c : Customer)
    (requested_amount requested_rate : ℚ) (tenure : ℕ) :
    (check_loan_eligibility today_year c requested_amount requested_rate
        tenure).credit_score = calculate_credit_score today_year c ∧
    (check_loan_eligibility today_year c requested_amount requested_rate
        tenure).corrected_interest_rate
      = (slabDecision (calculate_credit_score today_year c) requested_rate).2 ∧
    (calculate_credit_score today_year c > 50 →
      slabDecision (calculate_credit_score today_year c) requested_rate
        = (true, requested_rate)) ∧
    (30 < calculate_credit_score today_year c ∧
        calculate_credit_score today_year c ≤ 50 →
      slabDecision (calculate_credit_score today_year c) requested_rate
        = (true, max requested_rate 12)) ∧
    (10 < calculate_credit_score today_year c ∧
        calculate_credit_score today_year c ≤ 30 →
      slabDecision (calculate_credit_score today_year c) requested_rate
        = (true, max requested_rate 16)) ∧
    (calculate_credit_score today_year c ≤ 10 →
      slabDecision (calculate_credit_score today_year c) requested_rate
        = (false, requested_rate)) := by
  have h := slab_cases (calculate_credit_score today_year c) requested_rate
  exact ⟨rfl, rfl, h.1, h.2.1, h.2.2.1, h.2.2.2⟩

theorem C1_risk_slab_witness :
    30 < calculate_credit_score 2026 freshCustomer ∧
    calculate_credit_score 2026 freshCustomer ≤ 50 ∧
    slabDecision (calculate_credit_score 2026 freshCustomer) 13 = (true, 13) ∧
    (check_loan_eligibility 2026 freshCustomer 50000 13 12).corrected_interest_rate
      = 13 := by
  have hs : calculate_credit_score 2026 freshCustomer = 50 := by
    simp [calculate_credit_score, currentDebt, freshCustomer]
  have h := C1_risk_slab 2026 freshCustomer 50000 13 12
  have h4 := h.2.2.2.1 ⟨by omega, by omega⟩
  have hmax : max (13:ℚ) 12 = 13 := by norm_num
  refine ⟨by omega, by omega, ?_, ?_⟩
  · rw [h4, hmax]
  · rw [h.2.1, h4, hmax]

/-- Claim C2: the returned installment is computed at the corrected (slab)
rate; whenever the active-loan installment total plus that new installment
exceeds half the monthly salary the decision is not approved regardless of
the score; approval implies the slab approved, so the affordability check can
only turn approved into not approved, never the reverse; and when the check
does not fire the decision equals the slab decision (the check runs
unconditionally). -/
theorem C2_affordability_override (today_year : ℤ) (c : Customer)
    (requested_amount requested_rate : ℚ) (tenure : ℕ) :
    (check_loan_eligibility today_year c requested_amount requested_rate
        tenure).monthly_installment
      = calc_emi requested_amount
          (slabDecision (calculate_credit_score today_year c) requested_rate).2
          tenure ∧
    (currentEmiTotal c + (check_loan_eligibility today_year c requested_amount
          requested_rate tenure).monthly_installment > 1/2 * c.monthly_salary →
      (check_loan_eligibility today_year c requested_amount requested_rate
        tenure).approval = false) ∧
    ((check_loan_eligibility today_year c requested_amount requested_rate
        tenure).approval = true →
      (slabDecision (calculate_credit_score today_year c) requested_rate).1
        = true) ∧
    (currentEmiTotal c + (check_loan_eligibility today_year c requested_amount
          requested_rate tenure).monthly_installment ≤ 1/2 * c.monthly_salary →
      (check_loan_eligibility today_year c requested_amount requested_rate
          tenure).approval
        = (slabDecision (calculate_credit_score today_year c) requested_rate).1) := by
  refine ⟨rfl, ?_, ?_, ?_⟩
  · intro h
    dsimp only [check_loan_eligibility] at h ⊢
    rw [if_pos h]
  · intro h
    dsimp only [check_loan_eligibility] at h
    by_cases hc : currentEmiTotal c
        + calc_emi requested_amount
            (slabDecision (calculate_credit_score today_year c) requested_rate).2
            tenure > 1/2 * c.monthly_salary
    · rw [if_pos hc] at h
      exact absurd h (by simp)
    · rw [if_neg hc] at h
      exact h
  · intro h
    dsimp only [check_loan_eligibility] at h ⊢
    rw [if_neg (not_lt.mpr h)]

theorem C2_affordability_override_witness :
    (check_loan_eligibility 2026 stretchedCustomer 0 0 0).approval = false ∧
    (check_loan_eligibility 2026 freshCustomer 0 13 0).approval = true := by
  constructor
  · apply (C2_affordability_override 2026 stretchedCustomer 0 0 0).2.1
    have hm : (check_loan_eligibility 2026 stretchedCustomer 0 0 0).monthly_installment
        = 0 := by
      simp [check_loan_eligibility, calc_emi]
    rw [hm]
    simp [currentEmiTotal, stretchedCustomer, activeLoan, Loan.is_active,
      Loan.remaining_emis]
    norm_num
  · have h := (C2_affordability_override 2026 freshCustomer 0 13 0).2.2.2
    have hm : (check_loan_eligibility 2026 freshCustomer 0 13 0).monthly_installment
        = 0 := by
      simp [check_loan_eligibility, calc_emi]
    have hle : currentEmiTotal freshCustomer
        + (check_loan_eligibility 2026 freshCustomer 0 13 0).monthly_installment
        ≤ 1/2 * freshCustomer.monthly_salary := by
      rw [hm]
      simp [currentEmiTotal, freshCustomer]
    rw [h hle]
    have hs : calculate_credit_score 2026 freshCustomer = 50 := by
      simp [calculate_credit_score, currentDebt, freshCustomer]
    rw [hs]
    simp [slabDecision]

/-- Claim C6: the EMI is non-negative for non-negative principal and rate
and positive tenure; at rate 0 it is exactly the principal divided by the
tenure, rounded to 2 decimals; and tenure 0 yields 0.00 with no error for
any principal and rate. -/
theorem C6_calc_emi_basic (principal annual_rate : ℚ) (tenure_months : ℕ) :
    (0 ≤ principal → 0 ≤ annual_rate → 0 < tenure_months →
      0 ≤ calc_emi principal annual_rate tenure_months) ∧
    (annual_rate = 0 → 0 < tenure_months →
      calc_emi principal annual_rate tenure_months
        = round2 (principal / tenure_months)) ∧
    calc_emi principal annual_rate 0 = 0 := by
  refine ⟨?_, ?_, by simp [calc_emi]⟩
  · intro hp hr hn
    unfold calc_emi
    rw [if_neg (by omega : ¬ tenure_months = 0)]
    dsimp only
    by_cases h : annual_rate / 12 / 100 = 0
    · rw [if_pos h]
      exact round2_nonneg (div_nonneg hp (by positivity))
    · rw [if_neg h]
      have hge : 0 ≤ annual_rate / 12 / 100 :=
        div_nonneg (div_nonneg hr (by norm_num)) (by norm_num)
      have hr0 : 0 < annual_rate / 12 / 100 := lt_of_le_of_ne hge (Ne.symm h)
      have hpow : 1 < (1 + annual_rate / 12 / 100) ^ tenure_months :=
        one_lt_pow₀ (by linarith) (by omega)
      refine round2_nonneg (div_nonneg ?_ (by linarith))
      have hpw : (0:ℚ) ≤ (1 + annual_rate / 12 / 100) ^ tenure_months := by positivity
      exact mul_nonneg (mul_nonneg hp hr0.le) hpw
  · intro hr hn
    unfold calc_emi
    rw [if_neg (by omega : ¬ tenure_months = 0)]
    dsimp only
    rw [if_pos (by rw [hr]; norm_num)]

theorem C6_calc_emi_basic_witness :
    0 ≤ calc_emi 100 6 12 ∧ calc_emi 100 0 5 = round2 (100 / 5) ∧
    calc_emi 100 6 0 = 0 :=
  ⟨(C6_calc_emi_basic 100 6 12).1 (by norm_num) (by norm_num) (by norm_num),
    (C6_calc_emi_basic 100 0 5).2.1 rfl (by norm_num),
    (C6_calc_emi_basic 100 6 0).2.2⟩

/-- Claim C7: the remaining principal is 0.00 for an inactive loan
(equivalently, `remaining_emis = 0`), otherwise equals the spec's annuity
inversion of the stored installment and stored rate rounded to 2 decimals,
and is non-negative whenever the stored rate and installment are
non-negative (as the data model guarantees). -/
theorem C7_remaining_principal_spec (l : Loan) :
    (l.is_active = false → l.remaining_principal = 0) ∧
    (l.is_active = true → l.remaining_principal = specRemainingPrincipal l) ∧
    (l.is_active = false ↔ l.remaining_emis = 0) ∧
    (0 ≤ l.interest_rate → 0 ≤ l.monthly_installment →
      0 ≤ l.remaining_principal) := by
  have hiff : l.is_active = false ↔ l.remaining_emis = 0 := by
    simp [Loan.is_active, Loan.remaining_emis]
  refine ⟨?_, ?_, hiff, ?_⟩
  · intro h
    simp [Loan.remaining_principal, h]
  · intro h
    simp only [Loan.remaining_principal, specRemainingPrincipal, h,
      not_true_eq_false, if_false]
  · intro hr hA
    by_cases ha : l.is_active = true
    · have hn : l.remaining_emis.toNat ≠ 0 := by
        simp [Loan.is_active] at ha
        omega
      simp only [Loan.remaining_principal, ha, not_true_eq_false, if_false]
      by_cases h : l.interest_rate / 12 / 100 = 0
      · rw [if_pos h]
        exact mul_nonneg hA (by positivity)
      · rw [if_neg h]
        have hge : 0 ≤ l.interest_rate / 12 / 100 :=
          div_nonneg (div_nonneg hr (by norm_num)) (by norm_num)
        have hr0 : 0 < l.interest_rate / 12 / 100 := lt_of_le_of_ne hge (Ne.symm h)
        have hpow : 1 < (1 + l.interest_rate / 12 / 100) ^ l.remaining_emis.toNat :=
          one_lt_pow₀ (by linarith) hn
        have hpw : (0:ℚ) ≤ (1 + l.interest_rate / 12 / 100) ^ l.remaining_emis.toNat := by
          positivity
        refine round2_nonneg (mul_nonneg hA (div_nonneg (by linarith) ?_))
        positivity
    · have ha' : l.is_active = false := by
        revert ha
        cases l.is_active <;> simp
      simp [Loan.remaining_principal, ha']

theorem C7_remaining_principal_spec_witness :
    activeLoan.is_active = true ∧
    activeLoan.remaining_principal = specRemainingPrincipal activeLoan ∧
    0 ≤ activeLoan.remaining_principal := by
  have ha : activeLoan.is_active = true := by
    simp [Loan.is_active, Loan.remaining_emis, activeLoan]
  exact ⟨ha, (C7_remaining_principal_spec activeLoan).2.1 ha,
    (C7_remaining_principal_spec activeLoan).2.2.2 (by norm_num [activeLoan])
      (by norm_num [activeLoan])⟩

/-- Claim C8, counterexample: the claim says the approved limit is 36 times
the monthly income rounded DOWN to the nearest 100,000, so an income of
2,000 would give 0 — but the code's `quantize` rounds to the nearest, and an
income of 2,000 gives 100,000. -/
theorem C8_approved_limit_counterexample :
    calculate_approved_limit 2000 = 100000 ∧ (100000 : ℚ) ≠ 0 := by
  constructor
  · unfold calculate_approved_limit roundHalfEven
    norm_num
  · norm_num

/-- Claim C8, amended: at registration the approved limit is 36 times the
monthly income rounded to the NEAREST multiple of 100,000 (ties to even,
Decimal `quantize` default): the result is always an integer multiple of
100,000 within 50,000 of 36 times the income. -/
theorem C8_approved_limit_amended (monthly_income : ℚ) :
    ∃ k : ℤ, calculate_approved_limit monthly_income = (k : ℚ) * 100000 ∧
      |monthly_income * 36 - (k : ℚ) * 100000| ≤ 50000 := by
  refine ⟨roundHalfEven (monthly_income * 36 / 100000), rfl, ?_⟩
  have h := roundHalfEven_dist (monthly_income * 36 / 100000)
  have key : monthly_income * 36
        - (roundHalfEven (monthly_income * 36 / 100000) : ℚ) * 100000
      = (monthly_income * 36 / 100000
        - (roundHalfEven (monthly_income * 36 / 100000) : ℚ)) * 100000 := by
    ring
  rw [key, abs_mul, abs_of_nonneg (by norm_num : (0:ℚ) ≤ 100000)]
  linarith

/-- Claim C9: the EMI for principal 100,000 at 12 percent annual over 12
months lies strictly between 8,800 and 8,900; its exact value is 8,884.88. -/
theorem C9_reference_emi :
    8800 < calc_emi 100000 12 12 ∧ calc_emi 100000 12 12 < 8900 ∧
    calc_emi 100000 12 12 = 888488 / 100 := by
  have h : calc_emi 100000 12 12 = 888488 / 100 := by
    unfold calc_emi round2 roundHalfEven
    norm_num
  refine ⟨by rw [h]; norm_num, by rw [h]; norm_num, h⟩
